import Mathlib

/-!
Verification of the UMA negotiation engine (wdk-uma-poc).

The definitions below are a shallow embedding of the engine code:
- `buildSettlementOptions`, `buildCurrencies`, `generatePayResponse` follow
  `src/services/uma.js` (the variant with market-rate conversion, whose
  `generatePayResponse` carries the `converted` block);
- `handleLnurlp` follows the `GET /.well-known/lnurlp/:username` handler in
  `src/server.js`;
- the payment-request store follows `src/services/paymentService.ts` together
  with the SQLite schema (`payment_requests` with a UNIQUE nonce column):
  lookup by nonce, insert failing on a duplicate nonce.
External collaborators (market rates, the Spark invoice service, the static
currency config) are parameters of the environment, as the spec treats them.
JavaScript semantics that matter are modelled explicitly: string truthiness,
`BigInt` division truncating toward zero, and the `TypeError`/`RangeError`
thrown by `BigInt(undefined)` and by a zero divisor.
-/

namespace Uma

/-- Truthiness of an optional JS string: `undefined`/`null` and the empty
string are falsy, any other string is truthy. -/
def strTruthy : Option String → Bool
  | none => false
  | some s => !s.isEmpty

/-- Per-character lower-casing, the effect of JS toLowerCase() on the ASCII
chain and layer names this system uses. -/
def toLowerJs (s : String) : String := String.mk (s.data.map Char.toLower)

/-- Per-character upper-casing, the effect of JS toUpperCase() on the ASCII
layer names this system uses. -/
def toUpperJs (s : String) : String := String.mk (s.data.map Char.toUpper)

/-- One entry of the static chain-to-layer mapping: settlement layer and
default asset. -/
structure ChainMap where
  layer : String
  asset : String
deriving DecidableEq, Repr

/-- The chain mapping from `buildSettlementOptions` in `src/services/uma.js`
(chain name, lower case, to layer and default asset). -/
def chainMapping : String → Option ChainMap
  | "spark" => some ⟨"spark", "BTC"⟩
  | "lightning" => some ⟨"ln", "BTC"⟩
  | "ethereum" => some ⟨"ethereum", "USDT"⟩
  | "polygon" => some ⟨"polygon", "USDT"⟩
  | "arbitrum" => some ⟨"arbitrum", "USDT"⟩
  | "optimism" => some ⟨"optimism", "USDT"⟩
  | "base" => some ⟨"base", "USDT"⟩
  | "solana" => some ⟨"solana", "USDT"⟩
  | "plasma" => some ⟨"plasma", "USDT"⟩
  | _ => none

/-- A formatted chain address as produced by `getFormattedAddresses`:
an object with an `address` field and an optional EVM chain id. -/
structure ChainData where
  address : String
  chainId : Option Nat := none
deriving DecidableEq, Repr

/-- The JS value `chainData.address || chainData`: a string when the address
is truthy, otherwise the whole record (JS falls back to the object). -/
inductive Identifier where
  | str (s : String)
  | obj (d : ChainData)
deriving DecidableEq, Repr

/-- The inline multiplier table of `buildSettlementOptions` in
`src/services/uma.js`: USD and SAT multipliers per asset. -/
def assetMultipliers (asset : String) : List (String × Int) :=
  if asset = "USDT" then [("USD", 10000), ("SAT", 1000)]
  else if asset = "BTC" then [("USD", 10000), ("SAT", 1000)]
  else []

/-- One asset of a settlement option: identifier plus multiplier map. -/
structure SettleAsset where
  identifier : Identifier
  multipliers : List (String × Int)
deriving DecidableEq, Repr

/-- A settlement option: layer name plus asset list. -/
structure SettlementOption where
  settlementLayer : String
  assets : List SettleAsset
deriving DecidableEq, Repr

/-- The loop of `buildSettlementOptions` (`src/services/uma.js`): for each
stored chain address look up the mapping; skip unmapped chains; for the
spark layer the identifier is the stored address verbatim (object fallback
when the address string is empty), otherwise `ASSET_LAYER` upper-cased. -/
def buildSettlementOptions : List (String × ChainData) → List SettlementOption
  | [] => []
  | (chainName, d) :: rest =>
    match chainMapping (toLowerJs chainName) with
    | none => buildSettlementOptions rest
    | some m =>
      let identifier : Identifier :=
        if m.layer = "spark" then
          (if d.address.isEmpty then .obj d else .str d.address)
        else .str (m.asset ++ "_" ++ toUpperJs m.layer)
      { settlementLayer := m.layer,
        assets := [{ identifier := identifier, multipliers := assetMultipliers m.asset }] }
        :: buildSettlementOptions rest

/-- Static base data of a currency as held in the currency config
(`config/currencies.js`, consumed by `buildCurrencies`). -/
structure BaseCurrency where
  code : String
  name : String
  symbol : String
  decimals : Nat
deriving DecidableEq, Repr

/-- Tenant settings of a currency (`domain.currency_settings[code]`). -/
structure CurrencySettings where
  active : Bool
  minSendable : Int
  maxSendable : Int
deriving DecidableEq, Repr

/-- One entry of the currency list built for the discovery response. -/
structure CurrencyEntry where
  code : String
  name : String
  symbol : String
  decimals : Nat
  min : Int
  max : Int
  multiplier : Int
deriving DecidableEq, Repr

/-- The loop of `buildCurrencies`: skip inactive currencies, skip codes
missing from the config, and skip a currency whose multiplier is missing or
zero (JS: `if (!multiplier) continue`). `cur` is the static currency config,
`rates a c` models `marketRates.calculateMultipliers(a, [c])[c]`. -/
def buildCurrenciesGo (cur : String → Option BaseCurrency)
    (rates : String → String → Option Int) :
    List (String × CurrencySettings) → List CurrencyEntry
  | [] => []
  | (code, settings) :: rest =>
    if !settings.active then buildCurrenciesGo cur rates rest
    else
      match cur code with
      | none => buildCurrenciesGo cur rates rest
      | some baseConfig =>
        match rates "BTC" code with
        | none => buildCurrenciesGo cur rates rest
        | some mult =>
          if mult = 0 then buildCurrenciesGo cur rates rest
          else
            { code := baseConfig.code,
              name := baseConfig.name,
              symbol := baseConfig.symbol,
              decimals := baseConfig.decimals,
              min := settings.minSendable,
              max := settings.maxSendable,
              multiplier := mult } :: buildCurrenciesGo cur rates rest

/-- Entry point of `buildCurrencies`: an absent settings object yields the
empty list (`if (!currencySettings) return currencies`). -/
def buildCurrencies (cur : String → Option BaseCurrency)
    (rates : String → String → Option Int) :
    Option (List (String × CurrencySettings)) → List CurrencyEntry
  | none => []
  | some settingsList => buildCurrenciesGo cur rates settingsList

/-- The errors `generatePayResponse` can throw. The first four correspond to
`throw new Error(...)` sites; the last two model the unstructured JS errors
raised by `BigInt(undefined)` (a `TypeError`) and by BigInt division by zero
(a `RangeError`) at the conversion step. -/
inductive UmaError where
  | duplicateNonce
  | addressNotFound (layer : String)
  | missingSparkKey
  | invoiceFailure
  | rateMissing
  | divisionByZero
deriving DecidableEq, Repr

/-- The receiver fee, hard-coded to zero (`const receiverFees = 0`). -/
def receiverFees : Int := 0

/-- The phase-2 conversion:
`BigInt(amountMsats - receiverFees) / BigInt(multiplier)`.
BigInt division truncates toward zero, hence `Int.tdiv`; for a non-negative
amount and positive multiplier this is floor division. -/
def convert (amountSmallestUnits multiplier : Int) : Int :=
  (amountSmallestUnits - receiverFees).tdiv multiplier

/-- A resolved user record (result of `getUserByUsernameAndDomain`); the id
is JS-falsy exactly when it is zero. -/
structure User where
  id : Nat
  display_name : Option String := none
  spark_public_key : Option String := none
deriving DecidableEq, Repr

/-- A stored chain address row (`chain_addresses` table). -/
structure ChainAddress where
  chain_name : String
  address : String
deriving DecidableEq, Repr

/-- A payment-request record (`payment_requests` table): created once in
phase 2, keyed by its globally unique nonce. -/
structure PaymentRecord where
  userId : Nat
  nonce : String
  amountMsats : Int
  currency : Option String
  settlementLayer : Option String
  assetIdentifier : Option String
  pr : String
deriving DecidableEq, Repr

/-- Lookup by nonce (`paymentService.getPaymentRequestByNonce`). -/
def getPaymentRequestByNonce (db : List PaymentRecord) (nonce : String) :
    Option PaymentRecord :=
  db.find? (fun r => r.nonce == nonce)

/-- Insert of a payment-request record (`paymentService.createPaymentRequest`
over the `payment_requests` table, whose nonce column is UNIQUE): the insert
fails, returning no id, when a record with the nonce already exists. -/
def createPaymentRequest (db : List PaymentRecord) (r : PaymentRecord) :
    Option (Nat × List PaymentRecord) :=
  if (getPaymentRequestByNonce db r.nonce).isSome then none
  else some (db.length + 1, db ++ [r])

/-- The environment a phase-2 call runs in: the resolved user, their stored
chain addresses, the external market-rate function, the external Spark
invoice service, and the decimals column of the static currency config. -/
structure Env where
  user : Option User
  addresses : List ChainAddress
  rates : String → String → Option Int
  invoice : Int → String → Option String → Except Unit String
  decimalsOf : String → Option Nat

/-- The optional settlement descriptor of a payment response. -/
structure SettlementInfo where
  layer : String
  assetIdentifier : String
deriving DecidableEq, Repr

/-- The `converted` block of a payment response. -/
structure ConvertedBlock where
  amount : Int
  currencyCode : String
  decimals : Option Nat
  multiplier : Int
  fee : Int
deriving DecidableEq, Repr

/-- A successful phase-2 response. -/
structure PayResponse where
  pr : String
  settlement : Option SettlementInfo
  converted : ConvertedBlock
  disposable : Bool
  successMessage : String
deriving DecidableEq, Repr

/-- Outcome of `generatePayResponse`: `null` for an unresolved user, a thrown
error, or a response. -/
inductive PayResult where
  | userNotFound
  | failed (e : UmaError)
  | ok (resp : PayResponse)
deriving DecidableEq, Repr

/-- The branch condition
`settlementLayer && settlementLayer !== 'ln' && settlementLayer !== 'spark'`:
a truthy layer other than the Lightning and shared-custody defaults. -/
def nonLightningLayer : Option String → Bool
  | none => false
  | some s => !s.isEmpty && s != "ln" && s != "spark"

/-- The requested currency code, `currency || 'USD'`. -/
def currencyCodeOf (currency : Option String) : String :=
  if strTruthy currency then currency.getD "" else "USD"

/-- The optional settlement descriptor of the response, built exactly when
both sender-supplied fields are truthy
(`if (settlementLayer && assetIdentifier)`). -/
def settlementInfoOf (settlementLayer assetIdentifier : Option String) :
    Option SettlementInfo :=
  if strTruthy settlementLayer && strTruthy assetIdentifier then
    some { layer := settlementLayer.getD "",
           assetIdentifier := assetIdentifier.getD "" }
  else none

/-- The settlement asset used for conversion: BTC for an absent, `ln` or
`spark` layer, USDT otherwise. -/
def settleAsset (settlementLayer : Option String) : String :=
  if !(strTruthy settlementLayer) || settlementLayer == some "ln"
      || settlementLayer == some "spark" then "BTC" else "USDT"

/-- The `0x`-stripping done by `generateLightningInvoice` before calling the
Spark wallet. -/
def stripHexKey (k : String) : String :=
  if k.startsWith "0x" then k.drop 2 else k

/-- The invoice-dispatch step of `generatePayResponse`: a truthy non-default
layer resolves the user's chain address for that layer (case-insensitive),
failing when none exists; otherwise the user's spark public key is required
and the external invoice service is called, its failure propagating. -/
def dispatchPayment (env : Env) (user : User) (amountMsats : Int)
    (username : String) (settlementLayer : Option String) :
    Except UmaError String :=
  if nonLightningLayer settlementLayer then
    let s := settlementLayer.getD ""
    match env.addresses.find? (fun a => toLowerJs a.chain_name == toLowerJs s) with
    | none => .error (.addressNotFound s)
    | some a => .ok a.address
  else
    match user.spark_public_key with
    | none => .error .missingSparkKey
    | some k =>
      if k.isEmpty then .error .missingSparkKey
      else
        match env.invoice amountMsats username (some (stripHexKey k)) with
        | .error _ => .error .invoiceFailure
        | .ok inv => .ok inv

/-- Phase 2 of the protocol, `generatePayResponse` in `src/services/uma.js`
step by step: resolve the user (null when absent or with falsy id), reject a
nonce that already has a record, dispatch the payment instruction, store the
record, build the optional settlement descriptor from the truthiness of both
sender-supplied fields, and convert the amount with the market-rate
multiplier. The record store is threaded through and returned. -/
def generatePayResponse (env : Env) (db : List PaymentRecord)
    (username : String) (amountMsats : Int) (nonce : String)
    (currency : Option String) (settlementLayer : Option String)
    (assetIdentifier : Option String) : PayResult × List PaymentRecord :=
  match env.user with
  | none => (.userNotFound, db)
  | some user =>
    if user.id = 0 then (.userNotFound, db)
    else if (getPaymentRequestByNonce db nonce).isSome then
      (.failed .duplicateNonce, db)
    else
      match dispatchPayment env user amountMsats username settlementLayer with
      | .error e => (.failed e, db)
      | .ok pr =>
        match createPaymentRequest db
            { userId := user.id, nonce := nonce, amountMsats := amountMsats,
              currency := currency, settlementLayer := settlementLayer,
              assetIdentifier := assetIdentifier, pr := pr } with
        | none => (.failed .duplicateNonce, db)
        | some (_, db2) =>
          match env.rates (settleAsset settlementLayer) (currencyCodeOf currency) with
          | none => (.failed .rateMissing, db2)
          | some m =>
            if m = 0 then (.failed .divisionByZero, db2)
            else
              (.ok { pr := pr,
                     settlement := settlementInfoOf settlementLayer assetIdentifier,
                     converted :=
                       { amount := convert amountMsats m,
                         currencyCode := currencyCodeOf currency,
                         decimals := env.decimalsOf (currencyCodeOf currency),
                         multiplier := m,
                         fee := receiverFees },
                     disposable := false,
                     successMessage :=
                       "Payment received! Thank you for paying "
                         ++ (if strTruthy user.display_name then
                              user.display_name.getD "" else username) ++ "." },
               db2)

/-- HTTP status the server's catch block assigns an engine error: 409 for a
duplicate nonce, 400 when the message names a missing settlement-layer
address, 500 otherwise. -/
def statusOfError : UmaError → Nat
  | .duplicateNonce => 409
  | .addressNotFound _ => 400
  | _ => 500

/-- A reply of the lnurlp handler. -/
inductive ServerReply where
  | lookupPhase
  | errorReply (status : Nat)
  | payOk (resp : PayResponse)
deriving DecidableEq, Repr

/-- How the handler turns a phase-2 engine outcome into a reply: a null
response is a 404, a thrown error gets its mapped status, a response is sent
as-is. -/
def payReply : PayResult × List PaymentRecord → ServerReply × List PaymentRecord
  | (.userNotFound, db) => (.errorReply 404, db)
  | (.failed e, db) => (.errorReply (statusOfError e), db)
  | (.ok r, db) => (.payOk r, db)

/-- Decimal-digit prefix parsing used to model `parseInt(s, 10)`. -/
def parseDigits (cs : List Char) : Option Nat :=
  let ds := cs.takeWhile Char.isDigit
  if ds.isEmpty then none
  else some (ds.foldl (fun acc c => acc * 10 + (c.toNat - 48)) 0)

/-- A model of JS `parseInt(s, 10)`: trim, optional sign, longest digit
prefix; no digits gives NaN, modelled as none. -/
def parseIntJs (s : String) : Option Int :=
  match s.data.dropWhile Char.isWhitespace with
  | '-' :: rest => (parseDigits rest).map (fun n => -(n : Int))
  | '+' :: rest => (parseDigits rest).map (fun n => (n : Int))
  | t => (parseDigits t).map (fun n => (n : Int))

/-- The handler's nonce choice,
`nonce || 'uma_' + Date.now() + '_' + randomSuffix`:
the caller's nonce when truthy, otherwise a generated one from the current
time and a random suffix. -/
def paymentNonce (nonce : Option String) (now : Nat) (rand : String) : String :=
  if strTruthy nonce then nonce.getD ""
  else "uma_" ++ toString now ++ "_" ++ rand

/-- The `GET /.well-known/lnurlp/:username` handler of `src/server.js` on its
phase split: no truthy amount means phase 1 (discovery, out of scope here);
otherwise the nonce is chosen (auto-generated when absent), the amount parsed
and validated, the tenant resolved, and `generatePayResponse` invoked with
its outcome mapped to a reply. -/
def handleLnurlp (env : Env) (db : List PaymentRecord) (domainFound : Bool)
    (username : String) (amount nonce currency settlementLayer
    assetIdentifier : Option String) (now : Nat) (rand : String) :
    ServerReply × List PaymentRecord :=
  if !(strTruthy amount) then (.lookupPhase, db)
  else
    let n := paymentNonce nonce now rand
    match parseIntJs (amount.getD "") with
    | none => (.errorReply 400, db)
    | some amountMsats =>
      if amountMsats ≤ 0 then (.errorReply 400, db)
      else if !domainFound then (.errorReply 404, db)
      else
        payReply (generatePayResponse env db username amountMsats n currency
          settlementLayer assetIdentifier)

/-- The settlement descriptor of an outcome, none unless it is a response. -/
def settlementOf : PayResult → Option SettlementInfo
  | .ok resp => resp.settlement
  | _ => none

/-- A user shaped like the seeded example user: resolved id, display name and
a spark public key. -/
def aliceUser : User :=
  { id := 1, display_name := some "Alice Smith",
    spark_public_key := some "0250949ec" }

/-- A concrete environment for that user: one polygon address, a flat market
rate of 10000, a working invoice service and USD with two decimals. -/
def aliceEnv : Env :=
  { user := some aliceUser,
    addresses := [⟨"polygon", "0x742d"⟩],
    rates := fun _ _ => some 10000,
    invoice := fun _ _ _ => .ok "lnbc1mock",
    decimalsOf := fun c => if c = "USD" then some 2 else none }

/-- The same environment with a failing invoice service. -/
def aliceEnvNoInvoice : Env := { aliceEnv with invoice := fun _ _ _ => .error () }

/-- A resolved user without a spark public key. -/
def keylessUser : User := { id := 2 }

/-- An environment for the keyless user with no stored chain addresses. -/
def keylessEnv : Env := { aliceEnv with user := some keylessUser, addresses := [] }

/-- The response of a successful default-layer call by the example user at
amount 19990000 and rate 10000. -/
def aliceResp : PayResponse :=
  { pr := "lnbc1mock", settlement := none,
    converted :=
      { amount := 1999, currencyCode := "USD", decimals := some 2,
        multiplier := 10000, fee := 0 },
    disposable := false,
    successMessage := "Payment received! Thank you for paying Alice Smith." }

/-- The store contents after that call. -/
def aliceDb : List PaymentRecord :=
  [{ userId := 1, nonce := "w1", amountMsats := 19990000, currency := none,
     settlementLayer := none, assetIdentifier := none, pr := "lnbc1mock" }]

/-- The static USD entry used in currency-config fixtures. -/
def usdBase : BaseCurrency :=
  { code := "USD", name := "US Dollar", symbol := "$", decimals := 2 }

/-- A currency config holding only USD. -/
def usdOnlyConfig : String → Option BaseCurrency :=
  fun c => if c = "USD" then some usdBase else none

end Uma

namespace Uma

/-- Inversion of a successful phase-2 call: the success branch fixes the rate
lookup, the converted block and the settlement descriptor of the response. -/
theorem generatePayResponse_ok (env : Env) (db : List PaymentRecord)
    (username : String) (amountMsats : Int) (nonce : String)
    (currency settlementLayer assetIdentifier : Option String)
    (resp : PayResponse) (db2 : List PaymentRecord)
    (hok : generatePayResponse env db username amountMsats nonce currency
      settlementLayer assetIdentifier = (.ok resp, db2)) :
    ∃ m : Int,
      env.rates (settleAsset settlementLayer) (currencyCodeOf currency) = some m ∧
      m ≠ 0 ∧
      resp.converted =
        { amount := convert amountMsats m,
          currencyCode := currencyCodeOf currency,
          decimals := env.decimalsOf (currencyCodeOf currency),
          multiplier := m,
          fee := receiverFees } ∧
      resp.settlement = settlementInfoOf settlementLayer assetIdentifier := by
  unfold generatePayResponse at hok
  repeat' split at hok
  all_goals simp_all
  all_goals obtain ⟨h1, h2⟩ := hok
  all_goals subst h1
  all_goals exact ⟨rfl, rfl⟩

/-- C1: with the receiver fee hard-coded to 0, the converted amount of every
successful phase-2 call is the floor of (amount - fee) / multiplier for a
non-negative amount and a positive multiplier, and the conversion contract
gives convert(1999, 1000) = 1, convert(2000, 1000) = 2, convert(999, 1000) = 0. -/
theorem converted_amount_is_floor_div (env : Env) (db : List PaymentRecord)
    (username : String) (amountMsats : Int) (nonce : String)
    (currency settlementLayer assetIdentifier : Option String)
    (resp : PayResponse) (db2 : List PaymentRecord) (m : Int)
    (hrate : env.rates (settleAsset settlementLayer) (currencyCodeOf currency) = some m)
    (hm : 0 < m) (ha : 0 ≤ amountMsats)
    (hok : generatePayResponse env db username amountMsats nonce currency
      settlementLayer assetIdentifier = (.ok resp, db2)) :
    resp.converted.amount = Int.fdiv (amountMsats - receiverFees) m ∧
    convert 1999 1000 = 1 ∧ convert 2000 1000 = 2 ∧ convert 999 1000 = 0 := by
  obtain ⟨m', hm', hne, hconv, -⟩ :=
    generatePayResponse_ok _ _ _ _ _ _ _ _ _ _ hok
  have hmm : m' = m := by
    rw [hrate] at hm'
    exact (Option.some.inj hm').symm
  subst hmm
  refine ⟨?_, by decide, by decide, by decide⟩
  have hamt : resp.converted.amount = convert amountMsats m' := by rw [hconv]
  rw [hamt]
  unfold convert receiverFees
  rw [Int.tdiv_eq_ediv (by omega) hm.le, Int.fdiv_eq_ediv _ hm.le]

/-- Witness for C1 at a concrete call: amount 19990000 at rate 10000
converts to 1999. -/
theorem converted_amount_is_floor_div_witness :
    aliceResp.converted.amount = Int.fdiv ((19990000 : Int) - receiverFees) 10000 ∧
    convert 1999 1000 = 1 ∧ convert 2000 1000 = 2 ∧ convert 999 1000 = 0 :=
  converted_amount_is_floor_div aliceEnv [] "alice" 19990000 "w1" none none none
    aliceResp aliceDb 10000 rfl (by decide) (by decide) (by rfl)

/-- C2 counterexample: with nonce n1 unrecorded and the user resolved, a
phase-2 call whose invoice generation fails leaves the store empty, and a
later phase-2 call reusing the same nonce is not rejected as a duplicate
(it succeeds once the invoice service works again). -/
theorem invoice_failure_burns_nonce_cex :
    generatePayResponse aliceEnvNoInvoice [] "alice" 1000 "n1" none none none
      = (.failed .invoiceFailure, []) ∧
    (generatePayResponse aliceEnv [] "alice" 1000 "n1" none none none).fst
      ≠ .failed .duplicateNonce := by
  exact ⟨rfl, by decide⟩

/-- C2 amended: when invoice generation fails, the phase-2 call returns the
propagated failure with the record store unchanged, so the nonce is not
consumed and remains free for a retry. -/
theorem invoice_failure_leaves_nonce_free (env : Env) (db : List PaymentRecord)
    (username : String) (amountMsats : Int) (nonce : String)
    (currency settlementLayer assetIdentifier : Option String)
    (u : User) (k : String)
    (hu : env.user = some u) (hid : u.id ≠ 0)
    (hfresh : getPaymentRequestByNonce db nonce = none)
    (hlayer : nonLightningLayer settlementLayer = false)
    (hkey : u.spark_public_key = some k) (hk : ¬k.isEmpty)
    (hfail : env.invoice amountMsats username (some (stripHexKey k)) = .error ()) :
    generatePayResponse env db username amountMsats nonce currency
      settlementLayer assetIdentifier = (.failed .invoiceFailure, db) ∧
    getPaymentRequestByNonce db nonce = none := by
  refine ⟨?_, hfresh⟩
  unfold generatePayResponse dispatchPayment
  simp [hu, hid, hfresh, hlayer, hkey, hk, hfail]

/-- Witness for the amended C2 at the concrete failing environment. -/
theorem invoice_failure_leaves_nonce_free_witness :
    generatePayResponse aliceEnvNoInvoice [] "alice" 1000 "n1" none none none
      = (.failed .invoiceFailure, []) ∧
    getPaymentRequestByNonce [] "n1" = none :=
  invoice_failure_leaves_nonce_free aliceEnvNoInvoice [] "alice" 1000 "n1"
    none none none aliceUser "0250949ec" rfl (by decide) rfl rfl rfl
    (by decide) rfl

/-- C3: when a record with the nonce already exists, the phase-2 call fails
with the duplicate-nonce error, the store is unchanged, and the handler
surfaces the error as HTTP 409. -/
theorem duplicate_nonce_rejected (env : Env) (db : List PaymentRecord)
    (username : String) (amountMsats : Int) (nonce : String)
    (currency settlementLayer assetIdentifier : Option String)
    (u : User) (r : PaymentRecord)
    (hu : env.user = some u) (hid : u.id ≠ 0)
    (hdup : getPaymentRequestByNonce db nonce = some r) :
    generatePayResponse env db username amountMsats nonce currency
      settlementLayer assetIdentifier = (.failed .duplicateNonce, db) ∧
    payReply (generatePayResponse env db username amountMsats nonce currency
      settlementLayer assetIdentifier) = (.errorReply 409, db) := by
  have h1 : generatePayResponse env db username amountMsats nonce currency
      settlementLayer assetIdentifier = (.failed .duplicateNonce, db) := by
    unfold generatePayResponse
    simp [hu, hid, hdup]
  exact ⟨h1, by rw [h1]; rfl⟩

/-- Witness for C3: replaying the nonce recorded in the store. -/
theorem duplicate_nonce_rejected_witness :
    generatePayResponse aliceEnv aliceDb "alice" 1000 "w1" none none none
      = (.failed .duplicateNonce, aliceDb) ∧
    payReply (generatePayResponse aliceEnv aliceDb "alice" 1000 "w1" none
      none none) = (.errorReply 409, aliceDb) :=
  duplicate_nonce_rejected aliceEnv aliceDb "alice" 1000 "w1" none none none
    aliceUser
    { userId := 1, nonce := "w1", amountMsats := 19990000, currency := none,
      settlementLayer := none, assetIdentifier := none, pr := "lnbc1mock" }
    rfl (by decide) rfl

/-- C4: a phase-2 call choosing a settlement layer for which the user has no
stored chain address (case-insensitive match over the address list, hence
also any entirely unknown layer) fails with the address-not-found error and
leaves the record store unchanged. -/
theorem address_not_found_writes_nothing (env : Env) (db : List PaymentRecord)
    (username : String) (amountMsats : Int) (nonce : String)
    (currency : Option String) (s : String) (assetIdentifier : Option String)
    (u : User)
    (hu : env.user = some u) (hid : u.id ≠ 0)
    (hfresh : getPaymentRequestByNonce db nonce = none)
    (hs : ¬s.isEmpty) (hln : s ≠ "ln") (hspark : s ≠ "spark")
    (hnoaddr : env.addresses.find?
      (fun a => toLowerJs a.chain_name == toLowerJs s) = none) :
    generatePayResponse env db username amountMsats nonce currency (some s)
      assetIdentifier = (.failed (.addressNotFound s), db) := by
  unfold generatePayResponse dispatchPayment
  simp [hu, hid, hfresh, nonLightningLayer, hs, hln, hspark, hnoaddr]

/-- Witness for C4, scenario B: amount 10000, nonce n1, layer polygon for a
user with no polygon address. -/
theorem address_not_found_writes_nothing_witness :
    generatePayResponse keylessEnv [] "bob" 10000 "n1" none (some "polygon")
      none = (.failed (.addressNotFound "polygon"), []) :=
  address_not_found_writes_nothing keylessEnv [] "bob" 10000 "n1" none
    "polygon" none keylessUser rfl (by decide) rfl (by decide) (by decide)
    (by decide) rfl


/-- C5 counterexample: a currency whose market multiplier is zero is
silently skipped by buildCurrencies — the call succeeds with the currency
absent, and no structured NoRateAvailable failure occurs (the function
cannot fail at all: it is total into a plain list). -/
theorem zero_multiplier_silently_skipped_cex :
    buildCurrencies usdOnlyConfig (fun _ _ => some 0)
      (some [("USD", { active := true, minSendable := 1, maxSendable := 100000 })])
      = [] := by
  rfl

/-- C5 amended: a zero or missing multiplier never yields a structured
NoRateAvailable error. In buildCurrencies the currency is skipped and the
call succeeds; in generatePayResponse the conversion step throws the
unstructured BigInt TypeError after the payment record has already been
written. -/
theorem no_rate_never_structured :
    (∀ (cur : String → Option BaseCurrency)
       (rates : String → String → Option Int)
       (code : String) (settings : CurrencySettings)
       (rest : List (String × CurrencySettings)),
       (rates "BTC" code = none ∨ rates "BTC" code = some 0) →
       buildCurrenciesGo cur rates ((code, settings) :: rest)
         = buildCurrenciesGo cur rates rest) ∧
    (∀ (env : Env) (db : List PaymentRecord) (username : String)
       (amountMsats : Int) (nonce : String)
       (currency settlementLayer assetIdentifier : Option String)
       (u : User) (pr : String),
       env.user = some u → u.id ≠ 0 →
       getPaymentRequestByNonce db nonce = none →
       dispatchPayment env u amountMsats username settlementLayer = .ok pr →
       env.rates (settleAsset settlementLayer) (currencyCodeOf currency) = none →
       generatePayResponse env db username amountMsats nonce currency
         settlementLayer assetIdentifier
         = (.failed .rateMissing,
            db ++ [{ userId := u.id, nonce := nonce, amountMsats := amountMsats,
                     currency := currency, settlementLayer := settlementLayer,
                     assetIdentifier := assetIdentifier, pr := pr }])) := by
  constructor
  · intro cur rates code settings rest h
    conv_lhs => rw [buildCurrenciesGo]
    rcases h with h | h <;>
      cases hact : settings.active <;>
        cases hcur : cur code <;> simp [h, hact, hcur]
  · intro env db username amountMsats nonce currency settlementLayer
      assetIdentifier u pr hu hid hfresh hdisp hnorate
    unfold generatePayResponse createPaymentRequest
    simp [hu, hid, hfresh, hdisp, hnorate]

/-- Witness for the amended C5: a zero multiplier skips USD, and a missing
rate in phase 2 fails after the record was written. -/
theorem no_rate_never_structured_witness :
    buildCurrenciesGo usdOnlyConfig (fun _ _ => some 0)
      [("USD", { active := true, minSendable := 1, maxSendable := 100000 })]
      = buildCurrenciesGo usdOnlyConfig (fun _ _ => some 0) [] ∧
    generatePayResponse { aliceEnv with rates := fun _ _ => none } [] "alice"
      1000 "n5" none none none
      = (.failed .rateMissing,
         [{ userId := 1, nonce := "n5", amountMsats := 1000, currency := none,
            settlementLayer := none, assetIdentifier := none,
            pr := "lnbc1mock" }]) :=
  ⟨no_rate_never_structured.1 usdOnlyConfig (fun _ _ => some 0) "USD"
     { active := true, minSendable := 1, maxSendable := 100000 } [] (Or.inr rfl),
   no_rate_never_structured.2 { aliceEnv with rates := fun _ _ => none } []
     "alice" 1000 "n5" none none none aliceUser "lnbc1mock" rfl (by decide)
     rfl rfl rfl⟩

/-- C6: a stored chain address whose chain-name is mapped contributes a
settlement option whose asset identifier is the stored address verbatim for
the spark layer and ASSET_LAYER upper-cased otherwise. -/
theorem settlement_identifier_convention (chainName : String) (d : ChainData)
    (rest : List (String × ChainData)) (m : ChainMap)
    (hm : chainMapping (toLowerJs chainName) = some m)
    (haddr : ¬d.address.isEmpty) :
    buildSettlementOptions ((chainName, d) :: rest)
      = { settlementLayer := m.layer,
          assets := [{ identifier :=
                         if m.layer = "spark" then Identifier.str d.address
                         else Identifier.str (m.asset ++ "_" ++ toUpperJs m.layer),
                       multipliers := assetMultipliers m.asset }] }
          :: buildSettlementOptions rest := by
  conv_lhs => rw [buildSettlementOptions]
  rw [hm]
  simp [haddr]

/-- Witness for C6: a spark pubkey is kept verbatim and a polygon address
becomes USDT_POLYGON. -/
theorem settlement_identifier_convention_witness :
    buildSettlementOptions [("spark", { address := "0250949ec" })]
      = [{ settlementLayer := "spark",
           assets := [{ identifier := Identifier.str "0250949ec",
                        multipliers := [("USD", 10000), ("SAT", 1000)] }] }] ∧
    buildSettlementOptions [("Polygon", { address := "0x742d" })]
      = [{ settlementLayer := "polygon",
           assets := [{ identifier := Identifier.str "USDT_POLYGON",
                        multipliers := [("USD", 10000), ("SAT", 1000)] }] }] :=
  ⟨(settlement_identifier_convention "spark" { address := "0250949ec" } []
      ⟨"spark", "BTC"⟩ (by decide) (by decide)).trans (by decide),
   (settlement_identifier_convention "Polygon" { address := "0x742d" } []
      ⟨"polygon", "USDT"⟩ (by decide) (by decide)).trans (by decide)⟩

/-- C7: a phase-2 call whose layer condition selects the Lightning/spark
branch (layer absent, empty, ln or spark), for a user whose spark public key
is absent or empty, fails with the missing-settlement-identity error and the
store is unchanged, so no invoice is produced. -/
theorem missing_spark_key_fails (env : Env) (db : List PaymentRecord)
    (username : String) (amountMsats : Int) (nonce : String)
    (currency settlementLayer assetIdentifier : Option String) (u : User)
    (hu : env.user = some u) (hid : u.id ≠ 0)
    (hfresh : getPaymentRequestByNonce db nonce = none)
    (hlayer : nonLightningLayer settlementLayer = false)
    (hkey : strTruthy u.spark_public_key = false) :
    generatePayResponse env db username amountMsats nonce currency
      settlementLayer assetIdentifier = (.failed .missingSparkKey, db) := by
  unfold generatePayResponse dispatchPayment
  cases hk : u.spark_public_key with
  | none => simp [hu, hid, hfresh, hlayer, hk]
  | some k =>
    rw [hk] at hkey
    have hke : k.isEmpty = true := by simpa [strTruthy] using hkey
    simp [hu, hid, hfresh, hlayer, hk, hke]

/-- Witness for C7, scenario C: amount 10000, nonce n2, no layer chosen, for
a user without a settlement-identity key. -/
theorem missing_spark_key_fails_witness :
    generatePayResponse keylessEnv [] "bob" 10000 "n2" none none none
      = (.failed .missingSparkKey, []) :=
  missing_spark_key_fails keylessEnv [] "bob" 10000 "n2" none none none
    keylessUser rfl (by decide) rfl rfl rfl


/-- C8 counterexample: a sender explicitly choosing the default
shared-custody layer spark, with an asset identifier supplied, still gets a
settlement descriptor in the successful response — it is not absent for the
default layer. -/
theorem settlement_present_for_default_layer_cex :
    settlementOf
      (generatePayResponse aliceEnv [] "alice" 1000 "n9" none (some "spark")
        (some "BTC")).fst
      = some { layer := "spark", assetIdentifier := "BTC" } := by
  rfl

/-- C8 amended: in every successful phase-2 response the settlement
descriptor is present if and only if both the settlementLayer and the
assetIdentifier parameters were supplied non-empty, regardless of whether
the chosen layer is a default one. -/
theorem settlement_iff_both_params (env : Env) (db : List PaymentRecord)
    (username : String) (amountMsats : Int) (nonce : String)
    (currency settlementLayer assetIdentifier : Option String)
    (resp : PayResponse) (db2 : List PaymentRecord)
    (hok : generatePayResponse env db username amountMsats nonce currency
      settlementLayer assetIdentifier = (.ok resp, db2)) :
    resp.settlement.isSome
      = (strTruthy settlementLayer && strTruthy assetIdentifier) := by
  obtain ⟨m, -, -, -, hset⟩ := generatePayResponse_ok _ _ _ _ _ _ _ _ _ _ hok
  rw [hset]
  unfold settlementInfoOf
  split <;> simp_all

/-- Witness for the amended C8: default layer spark with an asset identifier
yields a present descriptor matching the truthiness of both parameters. -/
theorem settlement_iff_both_params_witness :
    (PayResponse.mk "lnbc1mock"
      (some { layer := "spark", assetIdentifier := "BTC" })
      { amount := 0, currencyCode := "USD", decimals := some 2,
        multiplier := 10000, fee := 0 }
      false
      "Payment received! Thank you for paying Alice Smith.").settlement.isSome
      = (strTruthy (some "spark") && strTruthy (some "BTC")) :=
  settlement_iff_both_params aliceEnv [] "alice" 1000 "n9" none (some "spark")
    (some "BTC") _
    [{ userId := 1, nonce := "n9", amountMsats := 1000, currency := none,
       settlementLayer := some "spark", assetIdentifier := some "BTC",
       pr := "lnbc1mock" }]
    (by rfl)

/-- C9: a stored chain address whose lower-cased chain-name has no entry in
the chain mapping contributes nothing: the builder skips it, processes the
remaining addresses unchanged, and still returns normally (it is total, so
the skip can never be an error). -/
theorem unmapped_chain_skipped (chainName : String) (d : ChainData)
    (rest : List (String × ChainData))
    (h : chainMapping (toLowerJs chainName) = none) :
    buildSettlementOptions ((chainName, d) :: rest)
      = buildSettlementOptions rest := by
  conv_lhs => rw [buildSettlementOptions]
  rw [h]

/-- Witness for C9: the seeded chain-name solana-mainnet is unmapped and is
skipped while the mapped spark address after it is still processed. -/
theorem unmapped_chain_skipped_witness :
    buildSettlementOptions
      [("solana-mainnet", { address := "DYw8" }),
       ("spark", { address := "0250949ec" })]
      = buildSettlementOptions [("spark", { address := "0250949ec" })] :=
  unmapped_chain_skipped "solana-mainnet" { address := "DYw8" }
    [("spark", { address := "0250949ec" })] (by rfl)

/-- C10: a phase-2 request (truthy amount) without a nonce parameter is not
rejected: the handler generates the nonce uma_{now}_{randomSuffix} and runs
the payment request with it, its outcome mapped to the reply as usual. -/
theorem missing_nonce_auto_generated (env : Env) (db : List PaymentRecord)
    (username : String) (amountStr : String)
    (currency settlementLayer assetIdentifier : Option String)
    (now : Nat) (rand : String) (amountMsats : Int)
    (hamt : ¬amountStr.isEmpty)
    (hparse : parseIntJs amountStr = some amountMsats)
    (hpos : 0 < amountMsats) :
    paymentNonce none now rand = "uma_" ++ toString now ++ "_" ++ rand ∧
    handleLnurlp env db true username (some amountStr) none currency
      settlementLayer assetIdentifier now rand
      = payReply (generatePayResponse env db username amountMsats
          ("uma_" ++ toString now ++ "_" ++ rand) currency settlementLayer
          assetIdentifier) := by
  constructor
  · rfl
  · unfold handleLnurlp paymentNonce
    simp [strTruthy, hamt, hparse]
    omega

/-- Witness for C10 at a concrete request: amount 1000, no nonce, time 17,
random suffix abc123. -/
theorem missing_nonce_auto_generated_witness :
    paymentNonce none 17 "abc123" = "uma_" ++ toString 17 ++ "_" ++ "abc123" ∧
    handleLnurlp aliceEnv [] true "alice" (some "1000") none none none none
      17 "abc123"
      = payReply (generatePayResponse aliceEnv [] "alice" 1000
          ("uma_" ++ toString 17 ++ "_" ++ "abc123") none none none) :=
  missing_nonce_auto_generated aliceEnv [] "alice" "1000" none none none 17
    "abc123" 1000 (by decide) (by decide) (by decide)

end Uma
